import Mathlib

/-!
Shallow embedding of the Inception-v1 (GoogLeNet) implementation in
`Inception_Net.ipynb`: the `Inception_Block`, `Auxiliary_Classifier` and
`Inception_Net` modules, their forward computations, and the loss
combination cell.

Two complementary semantics are given, both translated operation by
operation from the source:

* a *shape* semantics (`...Shape` functions): each tensor operation acts
  on a shape `(N, C, H, W)` and returns `none` exactly when the PyTorch
  primitive would raise a dimension error (channel mismatch for a
  convolution, kernel larger than padded input for a convolution or
  pooling, `in_features` mismatch for a linear layer, mismatched
  non-concatenation dimensions for `torch.cat`);
* a *value* semantics over rational-valued tensors (`ℕ → ℕ → ℕ → ℕ → ℚ`),
  with convolution, pooling, rectification, flattening, affine layers and
  dropout defined pointwise, used for claims about the dataflow of the
  forward computations (concatenation order, auxiliary taps, dropout).

The loss-combination cell is modelled over the reals, with cross-entropy
in its log-sum-exp form.
-/

/-! ## Shape semantics -/

/-- A feature-map shape `(N, C, H, W)`. -/
abbrev Shape : Type := ℕ × ℕ × ℕ × ℕ

/-- Output spatial extent of a convolution/pooling with kernel `k`,
stride `s`, padding `p` on an input extent `h` (PyTorch floor formula). -/
def convDim (h k s p : ℕ) : ℕ := (h + 2 * p - k) / s + 1

/-- Shape action of `nn.Conv2d(cin, cout, k, stride=s, padding=p)`:
requires the channel count to equal `cin` and the padded input to be at
least as large as the kernel, else the framework raises. -/
def conv2dShape (cin cout k s p : ℕ) (t : Shape) : Option Shape :=
  if t.2.1 = cin ∧ k ≤ t.2.2.1 + 2 * p ∧ k ≤ t.2.2.2 + 2 * p then
    some (t.1, cout, convDim t.2.2.1 k s p, convDim t.2.2.2 k s p)
  else none

/-- Shape action of `nn.MaxPool2d(k, stride=s, padding=p)`; PyTorch also
requires `p ≤ k / 2`. -/
def maxPool2dShape (k s p : ℕ) (t : Shape) : Option Shape :=
  if 2 * p ≤ k ∧ k ≤ t.2.2.1 + 2 * p ∧ k ≤ t.2.2.2 + 2 * p then
    some (t.1, t.2.1, convDim t.2.2.1 k s p, convDim t.2.2.2 k s p)
  else none

/-- Shape action of `nn.AvgPool2d(k, stride=s, padding=p)`. -/
def avgPool2dShape (k s p : ℕ) (t : Shape) : Option Shape :=
  if 2 * p ≤ k ∧ k ≤ t.2.2.1 + 2 * p ∧ k ≤ t.2.2.2 + 2 * p then
    some (t.1, t.2.1, convDim t.2.2.1 k s p, convDim t.2.2.2 k s p)
  else none

/-- `F.relu` is elementwise and never fails: shapes pass through. -/
def reluShape (t : Shape) : Option Shape := some t

/-- Shape action of `torch.cat((a, b), axis=1)`: concatenates channel
counts, all other dimensions must agree exactly. -/
def catShape (a b : Shape) : Option Shape :=
  if a.1 = b.1 ∧ a.2.2.1 = b.2.2.1 ∧ a.2.2.2 = b.2.2.2 then
    some (a.1, a.2.1 + b.2.1, a.2.2.1, a.2.2.2)
  else none

/-- Shape action of `x.reshape(x.shape[0], -1)`: always succeeds,
flattening to `(N, C*H*W)`. -/
def flattenShape (t : Shape) : ℕ × ℕ :=
  (t.1, t.2.1 * t.2.2.1 * t.2.2.2)

/-- Shape action of `nn.Linear(inF, outF)` on a `(N, F)` input: requires
`F = inF`, else the framework raises a matrix-dimension mismatch. -/
def linearShape (inF outF : ℕ) (t : ℕ × ℕ) : Option (ℕ × ℕ) :=
  if t.2 = inF then some (t.1, outF) else none

/-- The 7-tuple of channel counts configuring one Inception block:
`(in_ch, out1, red2, out2, red3, out3, out4)`. -/
abbrev BlockParams : Type := ℕ × ℕ × ℕ × ℕ × ℕ × ℕ × ℕ

/-- Shape semantics of `Inception_Block.forward`: the four branches
(1×1 conv; 1×1 reduce then 3×3 conv with padding 1; 1×1 reduce then 5×5
conv with padding 2; 3×3 stride-1 padding-1 max-pool then 1×1 conv), each
followed by rectification where the source applies `F.relu`, concatenated
along the channel axis. -/
def Inception_Block.forwardShape (bp : BlockParams) (t : Shape) : Option Shape :=
  match bp with
  | (in_ch, out1, red2, out2, red3, out3, out4) => do
    let b1 ← conv2dShape in_ch out1 1 1 0 t >>= reluShape
    let b2 ← ((conv2dShape in_ch red2 1 1 0 t >>= reluShape) >>=
      conv2dShape red2 out2 3 1 1) >>= reluShape
    let b3 ← ((conv2dShape in_ch red3 1 1 0 t >>= reluShape) >>=
      conv2dShape red3 out3 5 1 2) >>= reluShape
    let b4 ← ((maxPool2dShape 3 1 1 t >>= conv2dShape in_ch out4 1 1 0) >>= reluShape)
    let c12 ← catShape b1 b2
    let c123 ← catShape c12 b3
    catShape c123 b4

/-- Shape semantics of `Auxiliary_Classifier.forward`: 5×5 stride-3
average pool; 1×1 convolution to 128 channels with rectification;
flatten; `nn.Linear(4*4*128, 1024)` with rectification; dropout
(shape-preserving); `nn.Linear(1024, num_classes)`. -/
def Auxiliary_Classifier.forwardShape (in_ch num_classes : ℕ) (t : Shape) :
    Option (ℕ × ℕ) := do
  let s1 ← avgPool2dShape 5 3 0 t
  let s2 ← conv2dShape in_ch 128 1 1 0 s1 >>= reluShape
  let f3 ← linearShape (4 * 4 * 128) 1024 (flattenShape s2)
  linearShape 1024 num_classes f3

/-- The per-block channel configuration dictionary
`self.inception_params`, exactly as in `Inception_Net.__init__`
(Table 1 of the paper). -/
def inception_params : List (String × BlockParams) :=
  [("inception3a", (192, 64, 96, 128, 16, 32, 32)),
   ("inception3b", (256, 128, 128, 192, 32, 96, 64)),
   ("inception4a", (480, 192, 96, 208, 16, 48, 64)),
   ("inception4b", (512, 160, 112, 224, 24, 64, 64)),
   ("inception4c", (512, 128, 128, 256, 24, 64, 64)),
   ("inception4d", (512, 112, 144, 288, 32, 64, 64)),
   ("inception4e", (528, 256, 160, 320, 32, 128, 128)),
   ("inception5a", (832, 256, 160, 320, 32, 128, 128)),
   ("inception5b", (832, 384, 192, 384, 48, 128, 128))]

/-- Looks up a block's parameters in `inception_params`, as
`self.inception_params[name]` does. -/
def tableParams (name : String) : BlockParams :=
  (inception_params.lookup name).getD (0, 0, 0, 0, 0, 0, 0)

/-- Sum of the four branch output widths of a block: the channel count of
the block's concatenated output. -/
def sumOut (bp : BlockParams) : ℕ :=
  bp.2.1 + bp.2.2.2.1 + bp.2.2.2.2.2.1 + bp.2.2.2.2.2.2

/-- The `in_ch` entry of a `BlockParams` tuple. -/
def inCh (bp : BlockParams) : ℕ := bp.1

/-- Shape semantics of the stem of `Inception_Net.forward`: 7×7 stride-2
padding-3 convolution to 64 channels with rectification, 3×3 stride-2
max-pool, 1×1 reduce convolution (64→64) with rectification, 3×3
padding-1 convolution (64→192) with rectification, 3×3 stride-2
max-pool. -/
def Inception_Net.stemShape (t : Shape) : Option Shape := do
  let s1 ← conv2dShape 3 64 7 2 3 t >>= reluShape
  let s2 ← maxPool2dShape 3 2 1 s1
  let s3 ← (((conv2dShape 64 64 1 1 0 s2 >>= reluShape) >>=
    conv2dShape 64 192 3 1 1) >>= reluShape)
  maxPool2dShape 3 2 1 s3

/-- Shape semantics of the stage of `Inception_Net.forward` between the
stem and the first auxiliary tap point: `inception3a`, `inception3b`,
`maxpool3` and `inception4a`. -/
def Inception_Net.stage3Shape (t : Shape) : Option Shape := do
  let s5 ← Inception_Block.forwardShape (tableParams "inception3a") t
  let s6 ← Inception_Block.forwardShape (tableParams "inception3b") s5
  let s7 ← maxPool2dShape 3 2 1 s6
  Inception_Block.forwardShape (tableParams "inception4a") s7

/-- Shape semantics of the stage of `Inception_Net.forward` between the
two auxiliary tap points: `inception4b`, `inception4c`, `inception4d`. -/
def Inception_Net.stage4Shape (t : Shape) : Option Shape := do
  let s9 ← Inception_Block.forwardShape (tableParams "inception4b") t
  let s10 ← Inception_Block.forwardShape (tableParams "inception4c") s9
  Inception_Block.forwardShape (tableParams "inception4d") s10

/-- Shape semantics of the stage of `Inception_Net.forward` after the
second auxiliary tap point, up to the global average pool:
`inception4e`, `maxpool4`, `inception5a`, `inception5b`, `avgpool5`. -/
def Inception_Net.stage5Shape (t : Shape) : Option Shape := do
  let s12 ← Inception_Block.forwardShape (tableParams "inception4e") t
  let s13 ← maxPool2dShape 3 2 1 s12
  let s14 ← Inception_Block.forwardShape (tableParams "inception5a") s13
  let s15 ← Inception_Block.forwardShape (tableParams "inception5b") s14
  avgPool2dShape 7 1 0 s15

/-- Shape semantics of `Inception_Net.forward`, stage for stage: stem,
the nine Inception blocks with the interleaved max-pools, the two
auxiliary taps after `inception4a` and `inception4d` (`x.clone()`
preserves the shape), the 7×7 average pool, flatten, dropout
(shape-preserving) and the final `nn.Linear(1024, num_classes)`,
returning the shapes of `(scores0, scores1, scores2)`. -/
def Inception_Net.forwardShape (num_classes : ℕ) (t : Shape) :
    Option ((ℕ × ℕ) × (ℕ × ℕ) × (ℕ × ℕ)) := do
  let s4 ← Inception_Net.stemShape t
  let s8 ← Inception_Net.stage3Shape s4
  let aux0 := s8
  let s11 ← Inception_Net.stage4Shape s8
  let aux1 := s11
  let s16 ← Inception_Net.stage5Shape s11
  let scores2 ← linearShape 1024 num_classes (flattenShape s16)
  let scores0 ← Auxiliary_Classifier.forwardShape 512 num_classes aux0
  let scores1 ← Auxiliary_Classifier.forwardShape 528 num_classes aux1
  pure (scores0, scores1, scores2)

/-! ## Value semantics -/

/-- A rational-valued feature map, indexed `(batch, channel, row, col)`;
only indices inside the tracked shape are meaningful. -/
abbrev Tensor : Type := ℕ → ℕ → ℕ → ℕ → ℚ

/-- A rational-valued matrix `(batch, feature)`, the result of
flattening or of a fully-connected layer. -/
abbrev Mat : Type := ℕ → ℕ → ℚ

/-- Weights and bias of one `nn.Conv2d` layer: `weight` indexed
`(out-channel, in-channel, kernel-row, kernel-col)`. -/
structure Conv2dP where
  weight : ℕ → ℕ → ℕ → ℕ → ℚ
  bias : ℕ → ℚ

/-- Weights and bias of one `nn.Linear` layer: `weight` indexed
`(out-feature, in-feature)`. -/
structure LinearP where
  weight : Mat
  bias : ℕ → ℚ

/-- Value of a 2-d cross-correlation (`nn.Conv2d`) with `cin` input
channels, kernel `kh × kw`, stride `s`, zero padding `p`, on an input
whose spatial extent is `H × W`: positions outside the input read 0. -/
def conv2d (cin kh kw s p H W : ℕ) (P : Conv2dP) (x : Tensor) : Tensor :=
  fun n co oh ow =>
    P.bias co + ∑ ci ∈ Finset.range cin, ∑ i ∈ Finset.range kh, ∑ j ∈ Finset.range kw,
      P.weight co ci i j *
        (if p ≤ oh * s + i ∧ oh * s + i < H + p ∧ p ≤ ow * s + j ∧ ow * s + j < W + p then
          x n ci (oh * s + i - p) (ow * s + j - p) else 0)

/-- `F.relu` on a feature map: negative entries clamped to zero. -/
def relu4 (x : Tensor) : Tensor := fun n c h w => max (x n c h w) 0

/-- `F.relu` on a flattened matrix. -/
def relu2 (x : Mat) : Mat := fun n i => max (x n i) 0

/-- `nn.MaxPool2d(k, stride=s, padding=p)` on an input of spatial extent
`H × W`: the maximum over the window positions that fall inside the
input (padding positions hold `-∞` in PyTorch and never win). -/
def maxPool2d (k s p H W : ℕ) (x : Tensor) : Tensor :=
  fun n c oh ow =>
    (((List.range k).flatMap fun i => (List.range k).filterMap fun j =>
      if p ≤ oh * s + i ∧ oh * s + i < H + p ∧ p ≤ ow * s + j ∧ ow * s + j < W + p then
        some (x n c (oh * s + i - p) (ow * s + j - p)) else none).max?).getD 0

/-- `nn.AvgPool2d(k, stride=s)` without padding: for in-range output
positions the window lies inside the input, so the value is the plain
window average. -/
def avgPool2d (k s : ℕ) (x : Tensor) : Tensor :=
  fun n c oh ow =>
    (∑ i ∈ Finset.range k, ∑ j ∈ Finset.range k, x n c (oh * s + i) (ow * s + j)) / (k * k)

/-- `x.reshape(x.shape[0], -1)` on a feature map of spatial extent
`H × W`: row-major flattening, feature index `c*(H*W) + h*W + w`. -/
def flatten (H W : ℕ) (x : Tensor) : Mat :=
  fun n i => x n (i / (H * W)) (i / W % H) (i % W)

/-- `nn.Linear(inF, _)`: affine map over the first `inF` features of
each batch row. -/
def linear (inF : ℕ) (P : LinearP) (x : Mat) : Mat :=
  fun n j => P.bias j + ∑ i ∈ Finset.range inF, P.weight j i * x n i

/-- Execution mode of the network: training or inference. -/
inductive Mode : Type
  | train : Mode
  | infer : Mode

/-- `nn.Dropout(p)`: in training mode each entry is multiplied by its
Bernoulli mask sample `m` and rescaled by `1/(1-p)`; in inference mode
the layer is the identity. -/
def dropout (p : ℚ) (mode : Mode) (m : Mat) (x : Mat) : Mat :=
  match mode with
  | Mode.train => fun n i => x n i * m n i / (1 - p)
  | Mode.infer => x

/-- `x.clone()`: an independent copy; in a pure value semantics the
copy holds the same values. -/
def clone (x : Tensor) : Tensor := x

/-- The learnable parameters of one `Inception_Block`: the six
convolutions declared in `Inception_Block.__init__`. -/
structure BlockW where
  conv1 : Conv2dP
  reduce2 : Conv2dP
  conv2 : Conv2dP
  reduce3 : Conv2dP
  conv3 : Conv2dP
  conv4 : Conv2dP

/-- `torch.cat((t1, t2, t3, t4), axis=1)`: channel `c` reads from the
first part whose channel range contains `c`, in the given fixed order. -/
def cat4 (c1 c2 c3 : ℕ) (t1 t2 t3 t4 : Tensor) : Tensor :=
  fun n c h w =>
    if c < c1 then t1 n c h w
    else if c < c1 + c2 then t2 n (c - c1) h w
    else if c < c1 + c2 + c3 then t3 n (c - c1 - c2) h w
    else t4 n (c - c1 - c2 - c3) h w

/-- Value semantics of `Inception_Block.forward` on an input of spatial
extent `H × W` (all branches preserve it): four branches computed from
the same input `x`, concatenated along the channel axis. -/
def Inception_Block.forward (bp : BlockParams) (P : BlockW) (H W : ℕ) (x : Tensor) : Tensor :=
  match bp with
  | (in_ch, out1, red2, out2, red3, out3, _out4) =>
    let conv1_out := relu4 (conv2d in_ch 1 1 1 0 H W P.conv1 x)
    let conv2_out := relu4 (conv2d red2 3 3 1 1 H W P.conv2
      (relu4 (conv2d in_ch 1 1 1 0 H W P.reduce2 x)))
    let conv3_out := relu4 (conv2d red3 5 5 1 2 H W P.conv3
      (relu4 (conv2d in_ch 1 1 1 0 H W P.reduce3 x)))
    let conv4_out := relu4 (conv2d in_ch 1 1 1 0 H W P.conv4 (maxPool2d 3 1 1 H W x))
    cat4 out1 out2 out3 conv1_out conv2_out conv3_out conv4_out

/-- The learnable parameters of one `Auxiliary_Classifier`: the 1×1
convolution and the two fully-connected layers. -/
structure AuxW where
  conv2 : Conv2dP
  fc3 : LinearP
  fc5 : LinearP

/-- Value semantics of `Auxiliary_Classifier.forward` on an input of
spatial extent `H × W`: 5×5 stride-3 average pool; 1×1 convolution with
rectification; flatten; `fc3` (input width `4*4*128`) with
rectification; dropout at probability 0.7 with mask `m`; `fc5`. -/
def Auxiliary_Classifier.forward (mode : Mode) (in_ch : ℕ) (P : AuxW) (m : Mat)
    (H W : ℕ) (x : Tensor) : Mat :=
  let H1 := convDim H 5 3 0
  let W1 := convDim W 5 3 0
  let x1 := avgPool2d 5 3 x
  let x2 := relu4 (conv2d in_ch 1 1 1 0 H1 W1 P.conv2 x1)
  let x3 := relu2 (linear (4 * 4 * 128) P.fc3 (flatten H1 W1 x2))
  let x4 := dropout (7 / 10) mode m x3
  linear 1024 P.fc5 x4

/-- The learnable parameters of `Inception_Net`: the stem convolutions,
the nine Inception blocks, the final linear layer and the two auxiliary
classifiers, as declared in `Inception_Net.__init__`. -/
structure NetW where
  conv1 : Conv2dP
  reduce2 : Conv2dP
  conv2 : Conv2dP
  inception3a : BlockW
  inception3b : BlockW
  inception4a : BlockW
  inception4b : BlockW
  inception4c : BlockW
  inception4d : BlockW
  inception4e : BlockW
  inception5a : BlockW
  inception5b : BlockW
  linear5 : LinearP
  aux_classifier1 : AuxW
  aux_classifier2 : AuxW

/-- Value semantics of `Inception_Net.forward` on an input of spatial
extent `H × W`, line for line from the source: stem, `inception3a/3b`,
`maxpool3`, `inception4a`, tap `aux0 = x.clone()`, `inception4b/4c/4d`,
tap `aux1 = x.clone()`, `inception4e`, `maxpool4`, `inception5a/5b`,
`avgpool5`, flatten, dropout at probability 0.4 with mask `m5`, the main
linear layer, and the two auxiliary classifiers (with dropout masks `m0`
and `m1`), returning `(scores0, scores1, scores2)`. -/
def Inception_Net.forward (mode : Mode) (P : NetW) (m0 m1 m5 : Mat) (H W : ℕ)
    (x : Tensor) : Mat × Mat × Mat :=
  let h1 := convDim H 7 2 3
  let w1 := convDim W 7 2 3
  let x1 := relu4 (conv2d 3 7 7 2 3 H W P.conv1 x)
  let h2 := convDim h1 3 2 1
  let w2 := convDim w1 3 2 1
  let x2 := maxPool2d 3 2 1 h1 w1 x1
  let x3 := relu4 (conv2d 64 3 3 1 1 h2 w2 P.conv2
    (relu4 (conv2d 64 1 1 1 0 h2 w2 P.reduce2 x2)))
  let h3 := convDim h2 3 2 1
  let w3 := convDim w2 3 2 1
  let x4 := maxPool2d 3 2 1 h2 w2 x3
  let x5 := Inception_Block.forward (tableParams "inception3a") P.inception3a h3 w3 x4
  let x6 := Inception_Block.forward (tableParams "inception3b") P.inception3b h3 w3 x5
  let h4 := convDim h3 3 2 1
  let w4 := convDim w3 3 2 1
  let x7 := maxPool2d 3 2 1 h3 w3 x6
  let x8 := Inception_Block.forward (tableParams "inception4a") P.inception4a h4 w4 x7
  let aux0 := clone x8
  let x9 := Inception_Block.forward (tableParams "inception4b") P.inception4b h4 w4 x8
  let x10 := Inception_Block.forward (tableParams "inception4c") P.inception4c h4 w4 x9
  let x11 := Inception_Block.forward (tableParams "inception4d") P.inception4d h4 w4 x10
  let aux1 := clone x11
  let x12 := Inception_Block.forward (tableParams "inception4e") P.inception4e h4 w4 x11
  let h5 := convDim h4 3 2 1
  let w5 := convDim w4 3 2 1
  let x13 := maxPool2d 3 2 1 h4 w4 x12
  let x14 := Inception_Block.forward (tableParams "inception5a") P.inception5a h5 w5 x13
  let x15 := Inception_Block.forward (tableParams "inception5b") P.inception5b h5 w5 x14
  let h6 := convDim h5 7 1 0
  let w6 := convDim w5 7 1 0
  let x16 := avgPool2d 7 1 x15
  let xf := dropout (4 / 10) mode m5 (flatten h6 w6 x16)
  let scores2 := linear 1024 P.linear5 xf
  let scores0 := Auxiliary_Classifier.forward mode 512 P.aux_classifier1 m0 h4 w4 aux0
  let scores1 := Auxiliary_Classifier.forward mode 528 P.aux_classifier2 m1 h4 w4 aux1
  (scores0, scores1, scores2)

/-! ## Loss combination -/

/-- `F.cross_entropy(scores, y)` with the default mean reduction, in its
log-sum-exp form over exact reals: the mean over the batch of
`log (∑ⱼ exp scoreⱼ) - score_{label}`. -/
noncomputable def cross_entropy (N K : ℕ) (scores : ℕ → ℕ → ℝ) (y : ℕ → ℕ) : ℝ :=
  (∑ n ∈ Finset.range N,
    (Real.log (∑ j ∈ Finset.range K, Real.exp (scores n j)) - scores n (y n))) / N

/-- The loss-combination cell: `aux_loss1 = F.cross_entropy(scores0, y)`,
`aux_loss2 = F.cross_entropy(scores1, y)`,
`main_loss = F.cross_entropy(scores2, y)`,
`total_loss = main_loss + (0.3 * aux_loss1) + (0.3 * aux_loss2)`. -/
noncomputable def total_loss (N K : ℕ) (scores0 scores1 scores2 : ℕ → ℕ → ℝ)
    (y : ℕ → ℕ) : ℝ :=
  let aux_loss1 := cross_entropy N K scores0 y
  let aux_loss2 := cross_entropy N K scores1 y
  let main_loss := cross_entropy N K scores2 y
  main_loss + (0.3 * aux_loss1) + (0.3 * aux_loss2)

/-! ## Concrete objects used by the witnesses -/

/-- The all-zero feature map. -/
def zeroT : Tensor := fun _ _ _ _ => 0

/-- The all-zero matrix (also used as an all-zero dropout mask). -/
def zeroM : Mat := fun _ _ => 0

/-- The all-one matrix (a dropout mask keeping every unit). -/
def oneM : Mat := fun _ _ => 1

/-- All-zero convolution parameters. -/
def zeroConvP : Conv2dP := { weight := fun _ _ _ _ => 0, bias := fun _ => 0 }

/-- All-zero linear-layer parameters. -/
def zeroLinP : LinearP := { weight := fun _ _ => 0, bias := fun _ => 0 }

/-- Linear-layer parameters with bias 1. -/
def oneLinP : LinearP := { weight := fun _ _ => 0, bias := fun _ => 1 }

/-- All-zero block parameters. -/
def zeroBlockW : BlockW :=
  { conv1 := zeroConvP, reduce2 := zeroConvP, conv2 := zeroConvP,
    reduce3 := zeroConvP, conv3 := zeroConvP, conv4 := zeroConvP }

/-- A block parametrization distinct from `zeroBlockW` (bias 1 in the
first branch). -/
def oneBlockW : BlockW :=
  { conv1 := { weight := fun _ _ _ _ => 0, bias := fun _ => 1 },
    reduce2 := zeroConvP, conv2 := zeroConvP,
    reduce3 := zeroConvP, conv3 := zeroConvP, conv4 := zeroConvP }

/-- All-zero auxiliary-classifier parameters. -/
def zeroAuxW : AuxW := { conv2 := zeroConvP, fc3 := zeroLinP, fc5 := zeroLinP }

/-- All-zero network parameters. -/
def zeroNetW : NetW :=
  { conv1 := zeroConvP, reduce2 := zeroConvP, conv2 := zeroConvP,
    inception3a := zeroBlockW, inception3b := zeroBlockW,
    inception4a := zeroBlockW, inception4b := zeroBlockW,
    inception4c := zeroBlockW, inception4d := zeroBlockW,
    inception4e := zeroBlockW, inception5a := zeroBlockW,
    inception5b := zeroBlockW, linear5 := zeroLinP,
    aux_classifier1 := zeroAuxW, aux_classifier2 := zeroAuxW }

/-- Network parameters agreeing with `zeroNetW` on every stage up to and
including `inception4a` and on both auxiliary classifiers, but differing
after the taps (`inception5b` and the main linear layer). -/
def altNetW : NetW :=
  { zeroNetW with inception5b := oneBlockW, linear5 := oneLinP }

/-! ## Characterization of the shape semantics -/

/-- `conv2dShape` succeeds iff the channel count matches and the padded
input fits the kernel, and then yields the PyTorch output shape. -/
theorem conv2dShape_eq_some {cin cout k s p : ℕ} {t u : Shape} :
    conv2dShape cin cout k s p t = some u ↔
      ((t.2.1 = cin ∧ k ≤ t.2.2.1 + 2 * p ∧ k ≤ t.2.2.2 + 2 * p) ∧
        u = (t.1, cout, convDim t.2.2.1 k s p, convDim t.2.2.2 k s p)) := by
  unfold conv2dShape
  split
  · rename_i hc
    simp [hc, eq_comm]
  · rename_i hc
    simp only [false_iff, reduceCtorEq]
    rintro ⟨h1, _⟩
    exact hc h1

/-- `maxPool2dShape` succeeds iff the padding is admissible and the
padded input fits the kernel. -/
theorem maxPool2dShape_eq_some {k s p : ℕ} {t u : Shape} :
    maxPool2dShape k s p t = some u ↔
      ((2 * p ≤ k ∧ k ≤ t.2.2.1 + 2 * p ∧ k ≤ t.2.2.2 + 2 * p) ∧
        u = (t.1, t.2.1, convDim t.2.2.1 k s p, convDim t.2.2.2 k s p)) := by
  unfold maxPool2dShape
  split
  · rename_i hc
    simp [hc, eq_comm]
  · rename_i hc
    simp only [false_iff, reduceCtorEq]
    rintro ⟨h1, _⟩
    exact hc h1

/-- `avgPool2dShape` succeeds iff the padding is admissible and the
padded input fits the kernel. -/
theorem avgPool2dShape_eq_some {k s p : ℕ} {t u : Shape} :
    avgPool2dShape k s p t = some u ↔
      ((2 * p ≤ k ∧ k ≤ t.2.2.1 + 2 * p ∧ k ≤ t.2.2.2 + 2 * p) ∧
        u = (t.1, t.2.1, convDim t.2.2.1 k s p, convDim t.2.2.2 k s p)) := by
  unfold avgPool2dShape
  split
  · rename_i hc
    simp [hc, eq_comm]
  · rename_i hc
    simp only [false_iff, reduceCtorEq]
    rintro ⟨h1, _⟩
    exact hc h1

/-- `linearShape` succeeds iff the flattened width equals the layer's
fixed `in_features`. -/
theorem linearShape_eq_some {inF outF : ℕ} {t u : ℕ × ℕ} :
    linearShape inF outF t = some u ↔ (t.2 = inF ∧ u = (t.1, outF)) := by
  unfold linearShape
  split
  · rename_i hc
    simp [hc, eq_comm]
  · rename_i hc
    simp only [false_iff, reduceCtorEq]
    rintro ⟨h1, _⟩
    exact hc h1

/-- `catShape` succeeds iff batch and spatial dimensions agree, and adds
the channel counts. -/
theorem catShape_eq_some {a b u : Shape} :
    catShape a b = some u ↔
      ((a.1 = b.1 ∧ a.2.2.1 = b.2.2.1 ∧ a.2.2.2 = b.2.2.2) ∧
        u = (a.1, a.2.1 + b.2.1, a.2.2.1, a.2.2.2)) := by
  unfold catShape
  split
  · rename_i hc
    simp [hc, eq_comm]
  · rename_i hc
    simp only [false_iff, reduceCtorEq]
    rintro ⟨h1, _⟩
    exact hc h1

/-- `reluShape` always succeeds and preserves the shape. -/
theorem reluShape_eq_some {t u : Shape} : reluShape t = some u ↔ u = t := by
  unfold reluShape
  simp [eq_comm]

/-- A 1×1 stride-1 convolution preserves a positive spatial extent. -/
theorem convDim_one {h : ℕ} (hh : 1 ≤ h) : convDim h 1 1 0 = h := by
  unfold convDim
  omega

/-- A 3×3 stride-1 padding-1 convolution or pooling preserves a positive
spatial extent. -/
theorem convDim_three {h : ℕ} (hh : 1 ≤ h) : convDim h 3 1 1 = h := by
  unfold convDim
  omega

/-- A 5×5 stride-1 padding-2 convolution preserves a positive spatial
extent. -/
theorem convDim_five {h : ℕ} (hh : 1 ≤ h) : convDim h 5 1 2 = h := by
  unfold convDim
  omega

/-- On an input with the configured channel count and positive spatial
extent, an Inception block's shape is `(N, out1+out2+out3+out4, H, W)`. -/
theorem blockForwardShape_pos {i o1 r2 o2 r3 o3 o4 n c h w : ℕ}
    (hc : c = i) (hh : 1 ≤ h) (hw : 1 ≤ w) :
    Inception_Block.forwardShape (i, o1, r2, o2, r3, o3, o4) (n, c, h, w) =
      some (n, o1 + o2 + o3 + o4, h, w) := by
  subst hc
  have g3h : 3 ≤ h + 2 := by omega
  have g3w : 3 ≤ w + 2 := by omega
  have g5h : 5 ≤ h + 4 := by omega
  have g5w : 5 ≤ w + 4 := by omega
  simp [Inception_Block.forwardShape, conv2dShape, maxPool2dShape, reluShape, catShape,
    convDim_one, convDim_three, convDim_five, hh, hw, g3h, g3w, g5h, g5w]

/-- Full characterization: an Inception block's shape computation
succeeds iff the input channel count equals the configured `in_ch` and
both spatial extents are positive, and then the output is
`(N, out1+out2+out3+out4, H, W)`. -/
theorem blockForwardShape_eq_some {i o1 r2 o2 r3 o3 o4 : ℕ} {t u : Shape} :
    Inception_Block.forwardShape (i, o1, r2, o2, r3, o3, o4) t = some u ↔
      ((t.2.1 = i ∧ 1 ≤ t.2.2.1 ∧ 1 ≤ t.2.2.2) ∧
        u = (t.1, o1 + o2 + o3 + o4, t.2.2.1, t.2.2.2)) := by
  obtain ⟨n, c, h, w⟩ := t
  constructor
  · intro hsome
    by_cases hc : c = i
    · by_cases hh : 1 ≤ h
      · by_cases hw : 1 ≤ w
        · rw [blockForwardShape_pos hc hh hw] at hsome
          simp only [Option.some.injEq] at hsome
          exact ⟨⟨hc, hh, hw⟩, hsome.symm⟩
        · rw [Inception_Block.forwardShape] at hsome
          simp [conv2dShape, hw] at hsome
      · rw [Inception_Block.forwardShape] at hsome
        simp [conv2dShape, hh] at hsome
    · rw [Inception_Block.forwardShape] at hsome
      simp [conv2dShape, hc] at hsome
  · rintro ⟨⟨hc, hh, hw⟩, hu⟩
    subst hu
    exact blockForwardShape_pos hc hh hw

/-- On an input with the configured channel count, spatial extents at
least 5, and flattened width matching `fc3`, the auxiliary classifier
produces a `(N, num_classes)` score shape. -/
theorem auxForwardShape_pos {ic K n c h w : ℕ}
    (hc : c = ic) (hh : 5 ≤ h) (hw : 5 ≤ w)
    (hwidth : 128 * convDim h 5 3 0 * convDim w 5 3 0 = 2048) :
    Auxiliary_Classifier.forwardShape ic K (n, c, h, w) = some (n, K) := by
  subst hc
  have p1 : 1 ≤ convDim h 5 3 0 := by
    unfold convDim
    omega
  have p2 : 1 ≤ convDim w 5 3 0 := by
    unfold convDim
    omega
  simp [Auxiliary_Classifier.forwardShape, avgPool2dShape, conv2dShape, reluShape,
    flattenShape, linearShape, hh, hw, p1, p2, convDim_one p1, convDim_one p2, hwidth]

/-- Full characterization: the auxiliary classifier's shape computation
succeeds iff the channel count matches, both spatial extents are at
least 5 (else the average pool raises), and the flattened width after
pool and convolution equals the fixed `in_features = 2048` of `fc3`;
the output is then `(N, num_classes)`. -/
theorem auxForwardShape_eq_some {ic K : ℕ} {t : Shape} {u : ℕ × ℕ} :
    Auxiliary_Classifier.forwardShape ic K t = some u ↔
      ((t.2.1 = ic ∧ 5 ≤ t.2.2.1 ∧ 5 ≤ t.2.2.2 ∧
        128 * convDim t.2.2.1 5 3 0 * convDim t.2.2.2 5 3 0 = 2048) ∧
        u = (t.1, K)) := by
  obtain ⟨n, c, h, w⟩ := t
  constructor
  · intro hsome
    by_cases hh : 5 ≤ h
    · by_cases hw : 5 ≤ w
      · by_cases hc : c = ic
        · by_cases hwidth : 128 * convDim h 5 3 0 * convDim w 5 3 0 = 2048
          · rw [auxForwardShape_pos hc hh hw hwidth] at hsome
            simp only [Option.some.injEq] at hsome
            exact ⟨⟨hc, hh, hw, hwidth⟩, hsome.symm⟩
          · have p1 : 1 ≤ convDim h 5 3 0 := by
              unfold convDim
              omega
            have p2 : 1 ≤ convDim w 5 3 0 := by
              unfold convDim
              omega
            rw [Auxiliary_Classifier.forwardShape] at hsome
            simp [avgPool2dShape, conv2dShape, reluShape, flattenShape, linearShape,
              hh, hw, hc, p1, p2, convDim_one p1, convDim_one p2, hwidth] at hsome
        · rw [Auxiliary_Classifier.forwardShape] at hsome
          simp [avgPool2dShape, conv2dShape, hh, hw, hc] at hsome
      · rw [Auxiliary_Classifier.forwardShape] at hsome
        simp [avgPool2dShape, hw] at hsome
    · rw [Auxiliary_Classifier.forwardShape] at hsome
      simp [avgPool2dShape, hh] at hsome
  · rintro ⟨⟨hc, hh, hw, hwidth⟩, hu⟩
    subst hu
    exact auxForwardShape_pos hc hh hw hwidth

/-- The output extent of any convolution/pooling is at least 1. -/
theorem convDim_pos (h k s p : ℕ) : 1 ≤ convDim h k s p :=
  Nat.succ_le_succ (Nat.zero_le _)

/-- Table entry for block 3a. -/
theorem tableParams_3a : tableParams "inception3a" = (192, 64, 96, 128, 16, 32, 32) := rfl

/-- Table entry for block 3b. -/
theorem tableParams_3b : tableParams "inception3b" = (256, 128, 128, 192, 32, 96, 64) := rfl

/-- Table entry for block 4a. -/
theorem tableParams_4a : tableParams "inception4a" = (480, 192, 96, 208, 16, 48, 64) := rfl

/-- Table entry for block 4b. -/
theorem tableParams_4b : tableParams "inception4b" = (512, 160, 112, 224, 24, 64, 64) := rfl

/-- Table entry for block 4c. -/
theorem tableParams_4c : tableParams "inception4c" = (512, 128, 128, 256, 24, 64, 64) := rfl

/-- Table entry for block 4d. -/
theorem tableParams_4d : tableParams "inception4d" = (512, 112, 144, 288, 32, 64, 64) := rfl

/-- Table entry for block 4e. -/
theorem tableParams_4e : tableParams "inception4e" = (528, 256, 160, 320, 32, 128, 128) := rfl

/-- Table entry for block 5a. -/
theorem tableParams_5a : tableParams "inception5a" = (832, 256, 160, 320, 32, 128, 128) := rfl

/-- Table entry for block 5b. -/
theorem tableParams_5b : tableParams "inception5b" = (832, 384, 192, 384, 48, 128, 128) := rfl

/-- Characterization of the stage between the two taps: it succeeds iff
the input has 512 channels and positive spatial extent, and outputs 528
channels with unchanged spatial extent. -/
theorem Inception_Net.stage4Shape_eq_some {t u : Shape} :
    Inception_Net.stage4Shape t = some u ↔
      ((t.2.1 = 512 ∧ 1 ≤ t.2.2.1 ∧ 1 ≤ t.2.2.2) ∧ u = (t.1, 528, t.2.2.1, t.2.2.2)) := by
  obtain ⟨n, c, h, w⟩ := t
  simp only [Inception_Net.stage4Shape, tableParams_4b, tableParams_4c, tableParams_4d,
    Option.bind_eq_bind, Option.bind_eq_some, blockForwardShape_eq_some]
  constructor
  · rintro ⟨a, ⟨⟨hc, hh, hw⟩, ha⟩, b, ⟨⟨hcb, hhb, hwb⟩, hb⟩, ⟨hcc, hhc, hwc⟩, hu⟩
    subst ha hb hu
    simp_all
  · rintro ⟨⟨hc, hh, hw⟩, hu⟩
    subst hu
    refine ⟨(n, 160 + 224 + 64 + 64, h, w), ⟨⟨hc, hh, hw⟩, rfl⟩,
      (n, 128 + 256 + 64 + 64, h, w), ⟨⟨rfl, hh, hw⟩, rfl⟩, ⟨⟨rfl, hh, hw⟩, ?_⟩⟩
    simp

/-- Characterization of the stem: it succeeds iff the input has 3
channels and positive spatial extent, and outputs 192 channels at
extent `convDim (convDim (convDim H 7 2 3) 3 2 1) 3 2 1` (three
downsamplings: stem convolution and the two max-pools). -/
theorem Inception_Net.stemShape_eq_some {t u : Shape} :
    Inception_Net.stemShape t = some u ↔
      ((t.2.1 = 3 ∧ 1 ≤ t.2.2.1 ∧ 1 ≤ t.2.2.2) ∧
        u = (t.1, 192, convDim (convDim (convDim t.2.2.1 7 2 3) 3 2 1) 3 2 1,
          convDim (convDim (convDim t.2.2.2 7 2 3) 3 2 1) 3 2 1)) := by
  obtain ⟨n, c, h, w⟩ := t
  have p1h : 1 ≤ convDim h 7 2 3 := convDim_pos _ _ _ _
  have p1w : 1 ≤ convDim w 7 2 3 := convDim_pos _ _ _ _
  have p2h : 1 ≤ convDim (convDim h 7 2 3) 3 2 1 := convDim_pos _ _ _ _
  have p2w : 1 ≤ convDim (convDim w 7 2 3) 3 2 1 := convDim_pos _ _ _ _
  have g2h : 3 ≤ convDim h 7 2 3 + 2 := by omega
  have g2w : 3 ≤ convDim w 7 2 3 + 2 := by omega
  have g3h : 3 ≤ convDim (convDim h 7 2 3) 3 2 1 + 2 := by omega
  have g3w : 3 ≤ convDim (convDim w 7 2 3) 3 2 1 + 2 := by omega
  have e7h : (7 ≤ h + 2 * 3) ↔ (1 ≤ h) := by omega
  have e7w : (7 ≤ w + 2 * 3) ↔ (1 ≤ w) := by omega
  simp [Inception_Net.stemShape, Option.bind_eq_some, conv2dShape_eq_some,
    maxPool2dShape_eq_some, reluShape_eq_some, convDim_one, convDim_three,
    p1h, p1w, p2h, p2w, g2h, g2w, g3h, g3w, e7h, e7w, and_assoc]

/-- Characterization of the stage from the stem to the first tap: it
succeeds iff the input has 192 channels and positive spatial extent, and
outputs 512 channels at extent halved by `maxpool3`. -/
theorem Inception_Net.stage3Shape_eq_some {t u : Shape} :
    Inception_Net.stage3Shape t = some u ↔
      ((t.2.1 = 192 ∧ 1 ≤ t.2.2.1 ∧ 1 ≤ t.2.2.2) ∧
        u = (t.1, 512, convDim t.2.2.1 3 2 1, convDim t.2.2.2 3 2 1)) := by
  obtain ⟨n, c, h, w⟩ := t
  have ph : 1 ≤ convDim h 3 2 1 := convDim_pos _ _ _ _
  have pw : 1 ≤ convDim w 3 2 1 := convDim_pos _ _ _ _
  have gh : (3 ≤ h + 2 * 1) ↔ (1 ≤ h) := by omega
  have gw : (3 ≤ w + 2 * 1) ↔ (1 ≤ w) := by omega
  simp [Inception_Net.stage3Shape, tableParams_3a, tableParams_3b, tableParams_4a,
    Option.bind_eq_some, blockForwardShape_eq_some, maxPool2dShape_eq_some,
    ph, pw, gh, gw, and_assoc]
  tauto

/-- Characterization of the stage after the second tap: it succeeds iff
the input has 528 channels, positive spatial extent, and the extent
after `maxpool4` is at least 7 (else `avgpool5` raises); it outputs 1024
channels at the extent left by the 7×7 average pool. -/
theorem Inception_Net.stage5Shape_eq_some {t u : Shape} :
    Inception_Net.stage5Shape t = some u ↔
      ((t.2.1 = 528 ∧ 1 ≤ t.2.2.1 ∧ 1 ≤ t.2.2.2 ∧
        7 ≤ convDim t.2.2.1 3 2 1 ∧ 7 ≤ convDim t.2.2.2 3 2 1) ∧
        u = (t.1, 1024, convDim (convDim t.2.2.1 3 2 1) 7 1 0,
          convDim (convDim t.2.2.2 3 2 1) 7 1 0)) := by
  obtain ⟨n, c, h, w⟩ := t
  have ph : 1 ≤ convDim h 3 2 1 := convDim_pos _ _ _ _
  have pw : 1 ≤ convDim w 3 2 1 := convDim_pos _ _ _ _
  have gh : (3 ≤ h + 2 * 1) ↔ (1 ≤ h) := by omega
  have gw : (3 ≤ w + 2 * 1) ↔ (1 ≤ w) := by omega
  simp [Inception_Net.stage5Shape, tableParams_4e, tableParams_5a, tableParams_5b,
    Option.bind_eq_some, blockForwardShape_eq_some, maxPool2dShape_eq_some,
    avgPool2dShape_eq_some, ph, pw, gh, gw, and_assoc]
  tauto

/-- Full characterization of the network's shape computation: it
succeeds iff the input has 3 channels, positive spatial extent, the
extent after `maxpool4` is at least 7, the flattened main width equals
the 1024 expected by `linear5`, and the 14×14-style tap extents satisfy
the auxiliary classifiers' pool and width requirements; the result is
then the score triple `((N, K), (N, K), (N, K))`. -/
theorem netForwardShape_eq_some {K : ℕ} {t : Shape}
    {r : (ℕ × ℕ) × (ℕ × ℕ) × (ℕ × ℕ)} :
    Inception_Net.forwardShape K t = some r ↔
      ((t.2.1 = 3 ∧ 1 ≤ t.2.2.1 ∧ 1 ≤ t.2.2.2 ∧
        7 ≤ convDim (convDim (convDim (convDim (convDim t.2.2.1 7 2 3) 3 2 1) 3 2 1) 3 2 1) 3 2 1 ∧
        7 ≤ convDim (convDim (convDim (convDim (convDim t.2.2.2 7 2 3) 3 2 1) 3 2 1) 3 2 1) 3 2 1 ∧
        1024 * convDim (convDim (convDim (convDim (convDim (convDim t.2.2.1 7 2 3) 3 2 1) 3 2 1) 3 2 1) 3 2 1) 7 1 0 *
          convDim (convDim (convDim (convDim (convDim (convDim t.2.2.2 7 2 3) 3 2 1) 3 2 1) 3 2 1) 3 2 1) 7 1 0 = 1024 ∧
        5 ≤ convDim (convDim (convDim (convDim t.2.2.1 7 2 3) 3 2 1) 3 2 1) 3 2 1 ∧
        5 ≤ convDim (convDim (convDim (convDim t.2.2.2 7 2 3) 3 2 1) 3 2 1) 3 2 1 ∧
        128 * convDim (convDim (convDim (convDim (convDim t.2.2.1 7 2 3) 3 2 1) 3 2 1) 3 2 1) 5 3 0 *
          convDim (convDim (convDim (convDim (convDim t.2.2.2 7 2 3) 3 2 1) 3 2 1) 3 2 1) 5 3 0 = 2048) ∧
        r = ((t.1, K), (t.1, K), (t.1, K))) := by
  obtain ⟨n, c, h, w⟩ := t
  have p3h : 1 ≤ convDim (convDim (convDim h 7 2 3) 3 2 1) 3 2 1 := convDim_pos _ _ _ _
  have p3w : 1 ≤ convDim (convDim (convDim w 7 2 3) 3 2 1) 3 2 1 := convDim_pos _ _ _ _
  have p4h : 1 ≤ convDim (convDim (convDim (convDim h 7 2 3) 3 2 1) 3 2 1) 3 2 1 :=
    convDim_pos _ _ _ _
  have p4w : 1 ≤ convDim (convDim (convDim (convDim w 7 2 3) 3 2 1) 3 2 1) 3 2 1 :=
    convDim_pos _ _ _ _
  simp [Inception_Net.forwardShape, Option.bind_eq_some, Inception_Net.stemShape_eq_some,
    Inception_Net.stage3Shape_eq_some, Inception_Net.stage4Shape_eq_some,
    Inception_Net.stage5Shape_eq_some, auxForwardShape_eq_some,
    linearShape_eq_some, flattenShape, p3h, p3w, p4h, p4w, and_assoc]
  tauto

/-! ## Claims -/

/-- C1: for every batch size `n` and every `numClasses = K`, the forward
operation of `Inception_Net` on an input batch of shape `(n, 3, 224, 224)`
returns exactly three score shapes in the fixed order
`(auxScore0, auxScore1, mainScore)` — the first from the head tapped
after block 4a, the second from the head tapped after block 4d, the
third from the final classifier — each of shape `(n, K)`. -/
theorem C1_net_forward_score_triple (n K : ℕ) :
    Inception_Net.forwardShape K (n, 3, 224, 224) = some ((n, K), (n, K), (n, K)) := by
  rw [netForwardShape_eq_some]
  norm_num [convDim]

/-- C2: for every `BlockParameters` tuple with positive entries and
every input of shape `(n, in_ch, h, w)`, the block's forward operation
returns shape `(n, out1+out2+out3+out4, h, w)` — spatial dimensions
preserved. -/
theorem C2_block_output_shape (i o1 r2 o2 r3 o3 o4 n h w : ℕ)
    (hi : 0 < i) (ho1 : 0 < o1) (hr2 : 0 < r2) (ho2 : 0 < o2)
    (hr3 : 0 < r3) (ho3 : 0 < o3) (ho4 : 0 < o4)
    (hh : 0 < h) (hw : 0 < w) :
    Inception_Block.forwardShape (i, o1, r2, o2, r3, o3, o4) (n, i, h, w) =
      some (n, o1 + o2 + o3 + o4, h, w) :=
  blockForwardShape_pos rfl hh hw

/-- C2 witness: the concrete 3a configuration `(192,64,96,128,16,32,32)`
on input shape `(64, 192, 32, 32)` yields exactly `(64, 256, 32, 32)`. -/
theorem C2_block_output_shape_witness :
    (0 : ℕ) < 192 ∧
    Inception_Block.forwardShape (192, 64, 96, 128, 16, 32, 32) (64, 192, 32, 32) =
      some (64, 256, 32, 32) :=
  ⟨by norm_num,
    C2_block_output_shape 192 64 96 128 16 32 32 64 32 32 (by norm_num) (by norm_num)
      (by norm_num) (by norm_num) (by norm_num) (by norm_num) (by norm_num)
      (by norm_num) (by norm_num)⟩

/-- C4: the auxiliary classifier applies average pool (kernel 5, stride
3), 1×1 convolution to 128 channels with rectification, flatten, a
fully-connected layer of input width 2048 = 128·4·4 to 1024 units with
rectification, dropout, and a final fully-connected layer to
`num_classes` with no activation; on input `(n, 512, 14, 14)` the pool
yields `(n, 512, 4, 4)` and the output shape is exactly `(n, K)`. -/
theorem C4_aux_classifier_shape (n K : ℕ) :
    avgPool2dShape 5 3 0 (n, 512, 14, 14) = some (n, 512, 4, 4) ∧
    Auxiliary_Classifier.forwardShape 512 K (n, 512, 14, 14) = some (n, K) := by
  constructor
  · norm_num [avgPool2dShape, convDim]
  · exact auxForwardShape_pos rfl (by norm_num) (by norm_num)
      (by norm_num [convDim])

/-- C6 (amended): the hard-coded table is consistent — every block's
`out1+out2+out3+out4` equals the `in_ch` of the next consuming block,
the taps after 4a and 4d carry 512 and 528 channels (matching the two
auxiliary classifiers), the first block expects the stem's 192 channels,
and the last block feeds the 1024-wide final linear layer. -/
theorem C6_table_consistency :
    sumOut (tableParams "inception3a") = inCh (tableParams "inception3b") ∧
    sumOut (tableParams "inception3b") = inCh (tableParams "inception4a") ∧
    sumOut (tableParams "inception4a") = inCh (tableParams "inception4b") ∧
    sumOut (tableParams "inception4b") = inCh (tableParams "inception4c") ∧
    sumOut (tableParams "inception4c") = inCh (tableParams "inception4d") ∧
    sumOut (tableParams "inception4d") = inCh (tableParams "inception4e") ∧
    sumOut (tableParams "inception4e") = inCh (tableParams "inception5a") ∧
    sumOut (tableParams "inception5a") = inCh (tableParams "inception5b") ∧
    sumOut (tableParams "inception4a") = 512 ∧
    sumOut (tableParams "inception4d") = 528 ∧
    inCh (tableParams "inception3a") = 192 ∧
    sumOut (tableParams "inception5b") = 1024 := by
  decide

/-- C6 counterexample: a `BlockParameters` tuple with a non-positive
(zero) branch width is not rejected — neither at construction (the
source performs no validation) nor at the first forward call: the
forward operation on a well-typed input succeeds and returns a shape. -/
theorem C6_zero_width_not_rejected :
    Inception_Block.forwardShape (192, 0, 96, 128, 16, 32, 32) (1, 192, 5, 5) =
      some (1, 192, 5, 5) :=
  blockForwardShape_pos rfl (by norm_num) (by norm_num)

/-- C9 (amended): the auxiliary classifier's forward operation fails
with a dimension mismatch exactly when the input cannot be pooled
(spatial extent below 5) or the flattened width after pool and 1×1
convolution differs from the fixed `in_features = 2048` of `fc3`; it
never silently reshapes. -/
theorem C9_aux_failure_characterization (n K h w : ℕ) :
    Auxiliary_Classifier.forwardShape 512 K (n, 512, h, w) = none ↔
      ¬(5 ≤ h ∧ 5 ≤ w ∧ 128 * convDim h 5 3 0 * convDim w 5 3 0 = 2048) := by
  constructor
  · intro hnone hcond
    obtain ⟨hh, hw, hwidth⟩ := hcond
    rw [auxForwardShape_pos rfl hh hw hwidth] at hnone
    exact Option.some_ne_none _ hnone
  · intro hncond
    rcases hopt : Auxiliary_Classifier.forwardShape 512 K (n, 512, h, w) with _ | u
    · rfl
    · exact absurd ⟨(auxForwardShape_eq_some.mp hopt).1.2.1,
        (auxForwardShape_eq_some.mp hopt).1.2.2.1,
        (auxForwardShape_eq_some.mp hopt).1.2.2.2⟩ hncond

/-- C9 counterexample: on input `(1, 512, 26, 8)` the average pool
yields spatial extent `8 × 2`, which is not `4 × 4`, yet the flattened
width is `128·8·2 = 2048`, so the forward operation silently succeeds
and returns a `(1, 10)` score shape — refuting the claim that every
input not reducing to `4 × 4` fails. -/
theorem C9_non4x4_success :
    Auxiliary_Classifier.forwardShape 512 10 (1, 512, 26, 8) = some (1, 10) ∧
    (convDim 26 5 3 0, convDim 8 5 3 0) ≠ (4, 4) := by
  constructor
  · exact auxForwardShape_pos rfl (by norm_num) (by norm_num)
      (by norm_num [convDim])
  · decide

/-- C10 (amended): on `(n, 3, 224, 224)` the spatial extent evolves
224 → 112 (stem conv) → 56 (maxpool1) → 28 (maxpool2) → 14 (maxpool3)
→ 7 (maxpool4) → 1 (kernel-7 average pool), the taps are 14×14 maps
reduced to 4×4 by the auxiliary pool, and the whole forward computation
succeeds with no dimension mismatch; moreover any input shape on which
the forward computation succeeds has flattened main width exactly 1024
(inputs whose flattened width differs from 1024 fail). -/
theorem C10_spatial_dims (n K : ℕ) :
    (convDim 224 7 2 3 = 112 ∧ convDim 112 3 2 1 = 56 ∧ convDim 56 3 2 1 = 28 ∧
      convDim 28 3 2 1 = 14 ∧ convDim 14 3 2 1 = 7 ∧ convDim 7 7 1 0 = 1 ∧
      convDim 14 5 3 0 = 4) ∧
    Inception_Net.forwardShape K (n, 3, 224, 224) = some ((n, K), (n, K), (n, K)) ∧
    (∀ H W : ℕ, ∀ r, Inception_Net.forwardShape K (n, 3, H, W) = some r →
      1024 * convDim (convDim (convDim (convDim (convDim (convDim H 7 2 3) 3 2 1) 3 2 1) 3 2 1) 3 2 1) 7 1 0 *
        convDim (convDim (convDim (convDim (convDim (convDim W 7 2 3) 3 2 1) 3 2 1) 3 2 1) 3 2 1) 7 1 0 = 1024) := by
  refine ⟨by norm_num [convDim], ?_, ?_⟩
  · rw [netForwardShape_eq_some]
    norm_num [convDim]
  · intro H W r hr
    exact (netForwardShape_eq_some.mp hr).1.2.2.2.2.2.1

/-- C10 witness: the final conjunct applied at the 224×224 input, whose
success is the second conjunct: the flattened main width there is 1024. -/
theorem C10_spatial_dims_witness :
    1024 * convDim (convDim (convDim (convDim (convDim (convDim 224 7 2 3) 3 2 1) 3 2 1) 3 2 1) 3 2 1) 7 1 0 *
      convDim (convDim (convDim (convDim (convDim (convDim 224 7 2 3) 3 2 1) 3 2 1) 3 2 1) 3 2 1) 7 1 0 = 1024 :=
  (C10_spatial_dims 1 1).2.2 224 224 ((1, 1), (1, 1), (1, 1)) (C10_spatial_dims 1 1).2.1

/-- C10 counterexample: the input shape `(1, 3, 223, 223)` — a spatial
size other than 224×224 — also flows through the whole network with
flattened width 1024 and succeeds, refuting the claim that for inputs
with other spatial sizes the final linear layer raises. -/
theorem C10_223_succeeds :
    Inception_Net.forwardShape 2 (1, 3, 223, 223) = some ((1, 2), (1, 2), (1, 2)) := by
  rw [netForwardShape_eq_some]
  norm_num [convDim]

/-- C3: the block's forward computes four branches from the same input —
1×1 conv + relu; 1×1 reduce + relu + 3×3 conv (padding 1) + relu;
1×1 reduce + relu + 5×5 conv (padding 2) + relu; 3×3 stride-1 padding-1
max-pool + 1×1 conv + relu — and concatenates along the channel axis in
exactly that order: channels `[0, out1)` read branch 1, the next `out2`
branch 2, the next `out3` branch 3, and the rest branch 4. -/
theorem C3_block_concat_order (i o1 r2 o2 r3 o3 o4 : ℕ) (P : BlockW) (H W : ℕ)
    (x : Tensor) (n c h w : ℕ) :
    (c < o1 →
      Inception_Block.forward (i, o1, r2, o2, r3, o3, o4) P H W x n c h w =
        relu4 (conv2d i 1 1 1 0 H W P.conv1 x) n c h w) ∧
    (o1 ≤ c → c < o1 + o2 →
      Inception_Block.forward (i, o1, r2, o2, r3, o3, o4) P H W x n c h w =
        relu4 (conv2d r2 3 3 1 1 H W P.conv2
          (relu4 (conv2d i 1 1 1 0 H W P.reduce2 x))) n (c - o1) h w) ∧
    (o1 + o2 ≤ c → c < o1 + o2 + o3 →
      Inception_Block.forward (i, o1, r2, o2, r3, o3, o4) P H W x n c h w =
        relu4 (conv2d r3 5 5 1 2 H W P.conv3
          (relu4 (conv2d i 1 1 1 0 H W P.reduce3 x))) n (c - o1 - o2) h w) ∧
    (o1 + o2 + o3 ≤ c →
      Inception_Block.forward (i, o1, r2, o2, r3, o3, o4) P H W x n c h w =
        relu4 (conv2d i 1 1 1 0 H W P.conv4 (maxPool2d 3 1 1 H W x)) n
          (c - o1 - o2 - o3) h w) := by
  refine ⟨fun h1 => ?_, fun h1 h2 => ?_, fun h1 h2 => ?_, fun h1 => ?_⟩ <;>
    simp only [Inception_Block.forward, cat4]
  · rw [if_pos h1]
  · rw [if_neg (by omega), if_pos h2]
  · rw [if_neg (by omega), if_neg (by omega), if_pos h2]
  · rw [if_neg (by omega), if_neg (by omega), if_neg (by omega)]

/-- C3 witness: on the 3a configuration, channels 0, 64, 192 and 224 of
the concatenated output read branches 1, 2, 3 and 4 respectively. -/
theorem C3_block_concat_order_witness :
    ((0 : ℕ) < 64 ∧
      Inception_Block.forward (192, 64, 96, 128, 16, 32, 32) zeroBlockW 32 32 zeroT 0 0 0 0 =
        relu4 (conv2d 192 1 1 1 0 32 32 zeroBlockW.conv1 zeroT) 0 0 0 0) ∧
    ((64 : ℕ) ≤ 64 ∧ (64 : ℕ) < 64 + 128 ∧
      Inception_Block.forward (192, 64, 96, 128, 16, 32, 32) zeroBlockW 32 32 zeroT 0 64 0 0 =
        relu4 (conv2d 96 3 3 1 1 32 32 zeroBlockW.conv2
          (relu4 (conv2d 192 1 1 1 0 32 32 zeroBlockW.reduce2 zeroT))) 0 (64 - 64) 0 0) ∧
    ((64 : ℕ) + 128 ≤ 192 ∧ (192 : ℕ) < 64 + 128 + 32 ∧
      Inception_Block.forward (192, 64, 96, 128, 16, 32, 32) zeroBlockW 32 32 zeroT 0 192 0 0 =
        relu4 (conv2d 16 5 5 1 2 32 32 zeroBlockW.conv3
          (relu4 (conv2d 192 1 1 1 0 32 32 zeroBlockW.reduce3 zeroT))) 0 (192 - 64 - 128) 0 0) ∧
    ((64 : ℕ) + 128 + 32 ≤ 224 ∧
      Inception_Block.forward (192, 64, 96, 128, 16, 32, 32) zeroBlockW 32 32 zeroT 0 224 0 0 =
        relu4 (conv2d 192 1 1 1 0 32 32 zeroBlockW.conv4 (maxPool2d 3 1 1 32 32 zeroT)) 0
          (224 - 64 - 128 - 32) 0 0) :=
  ⟨⟨by norm_num,
    (C3_block_concat_order 192 64 96 128 16 32 32 zeroBlockW 32 32 zeroT 0 0 0 0).1
      (by norm_num)⟩,
   ⟨by norm_num, by norm_num,
    (C3_block_concat_order 192 64 96 128 16 32 32 zeroBlockW 32 32 zeroT 0 64 0 0).2.1
      (by norm_num) (by norm_num)⟩,
   ⟨by norm_num, by norm_num,
    (C3_block_concat_order 192 64 96 128 16 32 32 zeroBlockW 32 32 zeroT 0 192 0 0).2.2.1
      (by norm_num) (by norm_num)⟩,
   ⟨by norm_num,
    (C3_block_concat_order 192 64 96 128 16 32 32 zeroBlockW 32 32 zeroT 0 224 0 0).2.2.2
      (by norm_num)⟩⟩

/-- C5: for every label batch and score triple sharing batch size and
class count, the combined loss equals
`mainLoss + 0.3·auxLoss0 + 0.3·auxLoss1`, each component being the
standard cross-entropy of its respective scores against the labels. -/
theorem C5_total_loss_combination (N K : ℕ) (scores0 scores1 scores2 : ℕ → ℕ → ℝ)
    (y : ℕ → ℕ) :
    total_loss N K scores0 scores1 scores2 y =
      cross_entropy N K scores2 y + 0.3 * cross_entropy N K scores0 y +
        0.3 * cross_entropy N K scores1 y := rfl

/-- C7: the taps after blocks 4a and 4d are independent of everything
executed after them. If two parameterizations agree on the stem, on
blocks 3a–4a and on the first auxiliary classifier, then `auxScore0`
coincides — whatever the post-tap stages (4b–5b, the main dropout mask
and the main classifier) do; if they additionally agree on blocks 4b–4d
and the second auxiliary classifier, `auxScore1` coincides too. -/
theorem C7_tap_independence (mode : Mode) (P Q : NetW) (m0 m1 m5 m5b : Mat)
    (H W : ℕ) (x : Tensor)
    (hconv1 : P.conv1 = Q.conv1) (hreduce2 : P.reduce2 = Q.reduce2)
    (hconv2 : P.conv2 = Q.conv2) (h3a : P.inception3a = Q.inception3a)
    (h3b : P.inception3b = Q.inception3b) (h4a : P.inception4a = Q.inception4a)
    (haux1 : P.aux_classifier1 = Q.aux_classifier1) :
    (Inception_Net.forward mode P m0 m1 m5 H W x).1 =
      (Inception_Net.forward mode Q m0 m1 m5b H W x).1 ∧
    (P.inception4b = Q.inception4b → P.inception4c = Q.inception4c →
      P.inception4d = Q.inception4d → P.aux_classifier2 = Q.aux_classifier2 →
      (Inception_Net.forward mode P m0 m1 m5 H W x).2.1 =
        (Inception_Net.forward mode Q m0 m1 m5b H W x).2.1) := by
  constructor
  · dsimp only [Inception_Net.forward]
    rw [hconv1, hreduce2, hconv2, h3a, h3b, h4a, haux1]
  · intro h4b h4c h4d haux2
    dsimp only [Inception_Net.forward]
    rw [hconv1, hreduce2, hconv2, h3a, h3b, h4a, h4b, h4c, h4d, haux2]

/-- C7 witness: with all-zero weights against a variant that differs
only after the taps (block 5b and the main linear layer) and a different
main dropout mask, both auxiliary scores coincide. -/
theorem C7_tap_independence_witness :
    (Inception_Net.forward Mode.infer zeroNetW zeroM zeroM zeroM 224 224 zeroT).1 =
      (Inception_Net.forward Mode.infer altNetW zeroM zeroM oneM 224 224 zeroT).1 ∧
    (Inception_Net.forward Mode.infer zeroNetW zeroM zeroM zeroM 224 224 zeroT).2.1 =
      (Inception_Net.forward Mode.infer altNetW zeroM zeroM oneM 224 224 zeroT).2.1 :=
  ⟨(C7_tap_independence Mode.infer zeroNetW altNetW zeroM zeroM zeroM oneM 224 224 zeroT
      rfl rfl rfl rfl rfl rfl rfl).1,
   (C7_tap_independence Mode.infer zeroNetW altNetW zeroM zeroM zeroM oneM 224 224 zeroT
      rfl rfl rfl rfl rfl rfl rfl).2 rfl rfl rfl rfl⟩

/-- C8: in inference mode every dropout stage is the identity, and the
forward computation is independent of the dropout masks — so repeated
inference-mode evaluations on the same input with unchanged parameters
yield identical outputs. -/
theorem C8_inference_deterministic :
    (∀ (p : ℚ) (m x : Mat), dropout p Mode.infer m x = x) ∧
    (∀ (P : NetW) (m0 m1 m5 m0b m1b m5b : Mat) (H W : ℕ) (x : Tensor),
      Inception_Net.forward Mode.infer P m0 m1 m5 H W x =
        Inception_Net.forward Mode.infer P m0b m1b m5b H W x) :=
  ⟨fun _ _ _ => rfl, fun _ _ _ _ _ _ _ _ _ _ => rfl⟩

/-- C9 witness: the input `(1, 512, 10, 10)` pools to `2 × 2`, flattened
width `128·2·2 = 512 ≠ 2048`, and the forward operation fails. -/
theorem C9_aux_failure_witness :
    Auxiliary_Classifier.forwardShape 512 3 (1, 512, 10, 10) = none :=
  (C9_aux_failure_characterization 1 3 10 10).mpr (by norm_num [convDim])
